import Mathlib

/-!
Shallow embedding of the cupid CPU-identification library (src/lib.rs) and
proofs about its pure decoding logic.

The hardware primitive `cpuid` is the only impure operation; every consumer is
a pure function of the four result words it returns.  The embedding therefore
takes the result words (`u32`, embedded as `Nat` values) as explicit arguments
and models the decoding, assembly and rendering code faithfully.
-/

/-- The mask-building loop of `bits_of` (src/lib.rs lines 45-50): `silly` starts
at 0 and the body `silly <<= 1; silly |= 1` runs once per loop iteration, on a
`u32` (so the shift discards bit 31, modelled by the `% 2 ^ 32`). -/
def sillyMask : Nat → Nat
  | 0 => 0
  | n + 1 => ((sillyMask n <<< 1) % 2 ^ 32) ||| 1

/-- The function `bits_of(val, start_bit, end_bit)` of src/lib.rs lines 44-53.
The Rust loop `for _ in start_bit..end_bit+1` iterates `end_bit + 1 - start_bit`
times (0 times when the range is empty, matching truncated `Nat` subtraction),
and the result is `(val >> start_bit) & silly`.  The `u8` bit positions are
embedded as `Nat`; all call sites use positions at most 31, where `u8` and
`Nat` arithmetic agree. -/
def bits_of (val start_bit end_bit : Nat) : Nat :=
  (val >>> start_bit) &&& sillyMask (end_bit + 1 - start_bit)

/-- Expansion of the `bit!` macro (src/lib.rs lines 55-61): a single-bit
accessor reads `((self.reg >> idx) & 1) != 0`. -/
def bitAccessor (reg idx : Nat) : Bool :=
  ((reg >>> idx) &&& 1) != 0

/-- The model of `Iterator::position`: index of the first element satisfying
the predicate, `none` when there is none. -/
def position (p : Nat → Bool) : List Nat → Option Nat
  | [] => none
  | b :: bs => if p b then some 0 else (position p bs).map (· + 1)

/-- The constant `BRAND_STRING_LENGTH = 3 * 4 * 4` of src/lib.rs line 225. -/
def BRAND_STRING_LENGTH : Nat := 3 * 4 * 4

/-- The body of `<BrandString as Deref>::deref` (src/lib.rs lines 241-245):
`position` of the first zero byte with `unwrap_or(0)`, then the prefix
`&self.bytes[..nul_terminator]` of the buffer. -/
def derefBrand (bytes : List Nat) : List Nat :=
  let nul_terminator := (position (fun b => b == 0) bytes).getD 0
  bytes.take nul_terminator

/-- The logical string value of a brand-string buffer: `deref`'s byte slice
viewed as text (`str::from_utf8_unchecked`; the content is ASCII, so each byte
is one character). -/
def derefBrandStr (bytes : List Nat) : String :=
  String.mk ((derefBrand bytes).map Char.ofNat)

/-- The descriptor `FeatureInformation` of src/lib.rs lines 69-72: the third
and fourth result words of the version-information leaf. -/
structure FeatureInformation where
  ecx : Nat
  edx : Nat

/-- Accessor `sse3`, `bit!(ecx, 0)` of src/lib.rs. -/
def FeatureInformation.sse3 (s : FeatureInformation) : Bool := bitAccessor s.ecx 0

/-- Accessor `pclmulqdq`, `bit!(ecx, 1)` of src/lib.rs. -/
def FeatureInformation.pclmulqdq (s : FeatureInformation) : Bool := bitAccessor s.ecx 1

/-- Accessor `dtes64`, `bit!(ecx, 2)` of src/lib.rs. -/
def FeatureInformation.dtes64 (s : FeatureInformation) : Bool := bitAccessor s.ecx 2

/-- Accessor `monitor`, `bit!(ecx, 3)` of src/lib.rs. -/
def FeatureInformation.monitor (s : FeatureInformation) : Bool := bitAccessor s.ecx 3

/-- Accessor `ds_cpl`, `bit!(ecx, 4)` of src/lib.rs. -/
def FeatureInformation.ds_cpl (s : FeatureInformation) : Bool := bitAccessor s.ecx 4

/-- Accessor `vmx`, `bit!(ecx, 5)` of src/lib.rs. -/
def FeatureInformation.vmx (s : FeatureInformation) : Bool := bitAccessor s.ecx 5

/-- Accessor `smx`, `bit!(ecx, 6)` of src/lib.rs. -/
def FeatureInformation.smx (s : FeatureInformation) : Bool := bitAccessor s.ecx 6

/-- Accessor `eist`, `bit!(ecx, 7)` of src/lib.rs. -/
def FeatureInformation.eist (s : FeatureInformation) : Bool := bitAccessor s.ecx 7

/-- Accessor `tm2`, `bit!(ecx, 8)` of src/lib.rs. -/
def FeatureInformation.tm2 (s : FeatureInformation) : Bool := bitAccessor s.ecx 8

/-- Accessor `ssse3`, `bit!(ecx, 9)` of src/lib.rs. -/
def FeatureInformation.ssse3 (s : FeatureInformation) : Bool := bitAccessor s.ecx 9

/-- Accessor `cnxt_id`, `bit!(ecx, 10)` of src/lib.rs. -/
def FeatureInformation.cnxt_id (s : FeatureInformation) : Bool := bitAccessor s.ecx 10

/-- Accessor `sdbg`, `bit!(ecx, 11)` of src/lib.rs. -/
def FeatureInformation.sdbg (s : FeatureInformation) : Bool := bitAccessor s.ecx 11

/-- Accessor `fma`, `bit!(ecx, 12)` of src/lib.rs. -/
def FeatureInformation.fma (s : FeatureInformation) : Bool := bitAccessor s.ecx 12

/-- Accessor `cmpxchg16b`, `bit!(ecx, 13)` of src/lib.rs. -/
def FeatureInformation.cmpxchg16b (s : FeatureInformation) : Bool := bitAccessor s.ecx 13

/-- Accessor `xtpr_update_control`, `bit!(ecx, 14)` of src/lib.rs. -/
def FeatureInformation.xtpr_update_control (s : FeatureInformation) : Bool := bitAccessor s.ecx 14

/-- Accessor `pdcm`, `bit!(ecx, 15)` of src/lib.rs. -/
def FeatureInformation.pdcm (s : FeatureInformation) : Bool := bitAccessor s.ecx 15

/-- Accessor `pcid`, `bit!(ecx, 17)` of src/lib.rs. -/
def FeatureInformation.pcid (s : FeatureInformation) : Bool := bitAccessor s.ecx 17

/-- Accessor `dca`, `bit!(ecx, 18)` of src/lib.rs. -/
def FeatureInformation.dca (s : FeatureInformation) : Bool := bitAccessor s.ecx 18

/-- Accessor `sse4_1`, `bit!(ecx, 19)` of src/lib.rs. -/
def FeatureInformation.sse4_1 (s : FeatureInformation) : Bool := bitAccessor s.ecx 19

/-- Accessor `sse4_2`, `bit!(ecx, 20)` of src/lib.rs. -/
def FeatureInformation.sse4_2 (s : FeatureInformation) : Bool := bitAccessor s.ecx 20

/-- Accessor `x2apic`, `bit!(ecx, 21)` of src/lib.rs. -/
def FeatureInformation.x2apic (s : FeatureInformation) : Bool := bitAccessor s.ecx 21

/-- Accessor `movbe`, `bit!(ecx, 22)` of src/lib.rs. -/
def FeatureInformation.movbe (s : FeatureInformation) : Bool := bitAccessor s.ecx 22

/-- Accessor `popcnt`, `bit!(ecx, 23)` of src/lib.rs. -/
def FeatureInformation.popcnt (s : FeatureInformation) : Bool := bitAccessor s.ecx 23

/-- Accessor `tsc_deadline`, `bit!(ecx, 24)` of src/lib.rs. -/
def FeatureInformation.tsc_deadline (s : FeatureInformation) : Bool := bitAccessor s.ecx 24

/-- Accessor `aesni`, `bit!(ecx, 25)` of src/lib.rs. -/
def FeatureInformation.aesni (s : FeatureInformation) : Bool := bitAccessor s.ecx 25

/-- Accessor `xsave`, `bit!(ecx, 26)` of src/lib.rs. -/
def FeatureInformation.xsave (s : FeatureInformation) : Bool := bitAccessor s.ecx 26

/-- Accessor `osxsave`, `bit!(ecx, 27)` of src/lib.rs. -/
def FeatureInformation.osxsave (s : FeatureInformation) : Bool := bitAccessor s.ecx 27

/-- Accessor `avx`, `bit!(ecx, 28)` of src/lib.rs. -/
def FeatureInformation.avx (s : FeatureInformation) : Bool := bitAccessor s.ecx 28

/-- Accessor `f16c`, `bit!(ecx, 29)` of src/lib.rs. -/
def FeatureInformation.f16c (s : FeatureInformation) : Bool := bitAccessor s.ecx 29

/-- Accessor `rdrand`, `bit!(ecx, 30)` of src/lib.rs. -/
def FeatureInformation.rdrand (s : FeatureInformation) : Bool := bitAccessor s.ecx 30

/-- Accessor `fpu`, `bit!(edx, 0)` of src/lib.rs. -/
def FeatureInformation.fpu (s : FeatureInformation) : Bool := bitAccessor s.edx 0

/-- Accessor `vme`, `bit!(edx, 1)` of src/lib.rs. -/
def FeatureInformation.vme (s : FeatureInformation) : Bool := bitAccessor s.edx 1

/-- Accessor `de`, `bit!(edx, 2)` of src/lib.rs. -/
def FeatureInformation.de (s : FeatureInformation) : Bool := bitAccessor s.edx 2

/-- Accessor `pse`, `bit!(edx, 3)` of src/lib.rs. -/
def FeatureInformation.pse (s : FeatureInformation) : Bool := bitAccessor s.edx 3

/-- Accessor `tsc`, `bit!(edx, 4)` of src/lib.rs. -/
def FeatureInformation.tsc (s : FeatureInformation) : Bool := bitAccessor s.edx 4

/-- Accessor `msr`, `bit!(edx, 5)` of src/lib.rs. -/
def FeatureInformation.msr (s : FeatureInformation) : Bool := bitAccessor s.edx 5

/-- Accessor `pae`, `bit!(edx, 6)` of src/lib.rs. -/
def FeatureInformation.pae (s : FeatureInformation) : Bool := bitAccessor s.edx 6

/-- Accessor `mce`, `bit!(edx, 7)` of src/lib.rs. -/
def FeatureInformation.mce (s : FeatureInformation) : Bool := bitAccessor s.edx 7

/-- Accessor `cx8`, `bit!(edx, 8)` of src/lib.rs. -/
def FeatureInformation.cx8 (s : FeatureInformation) : Bool := bitAccessor s.edx 8

/-- Accessor `apic`, `bit!(edx, 9)` of src/lib.rs. -/
def FeatureInformation.apic (s : FeatureInformation) : Bool := bitAccessor s.edx 9

/-- Accessor `sep`, `bit!(edx, 11)` of src/lib.rs. -/
def FeatureInformation.sep (s : FeatureInformation) : Bool := bitAccessor s.edx 11

/-- Accessor `mtrr`, `bit!(edx, 12)` of src/lib.rs. -/
def FeatureInformation.mtrr (s : FeatureInformation) : Bool := bitAccessor s.edx 12

/-- Accessor `pge`, `bit!(edx, 13)` of src/lib.rs. -/
def FeatureInformation.pge (s : FeatureInformation) : Bool := bitAccessor s.edx 13

/-- Accessor `mca`, `bit!(edx, 14)` of src/lib.rs. -/
def FeatureInformation.mca (s : FeatureInformation) : Bool := bitAccessor s.edx 14

/-- Accessor `cmov`, `bit!(edx, 15)` of src/lib.rs. -/
def FeatureInformation.cmov (s : FeatureInformation) : Bool := bitAccessor s.edx 15

/-- Accessor `pat`, `bit!(edx, 16)` of src/lib.rs. -/
def FeatureInformation.pat (s : FeatureInformation) : Bool := bitAccessor s.edx 16

/-- Accessor `pse_36`, `bit!(edx, 17)` of src/lib.rs. -/
def FeatureInformation.pse_36 (s : FeatureInformation) : Bool := bitAccessor s.edx 17

/-- Accessor `psn`, `bit!(edx, 18)` of src/lib.rs. -/
def FeatureInformation.psn (s : FeatureInformation) : Bool := bitAccessor s.edx 18

/-- Accessor `clfsh`, `bit!(edx, 19)` of src/lib.rs. -/
def FeatureInformation.clfsh (s : FeatureInformation) : Bool := bitAccessor s.edx 19

/-- Accessor `ds`, `bit!(edx, 21)` of src/lib.rs. -/
def FeatureInformation.ds (s : FeatureInformation) : Bool := bitAccessor s.edx 21

/-- Accessor `acpi`, `bit!(edx, 22)` of src/lib.rs. -/
def FeatureInformation.acpi (s : FeatureInformation) : Bool := bitAccessor s.edx 22

/-- Accessor `mmx`, `bit!(edx, 23)` of src/lib.rs. -/
def FeatureInformation.mmx (s : FeatureInformation) : Bool := bitAccessor s.edx 23

/-- Accessor `fxsr`, `bit!(edx, 24)` of src/lib.rs. -/
def FeatureInformation.fxsr (s : FeatureInformation) : Bool := bitAccessor s.edx 24

/-- Accessor `sse`, `bit!(edx, 25)` of src/lib.rs. -/
def FeatureInformation.sse (s : FeatureInformation) : Bool := bitAccessor s.edx 25

/-- Accessor `sse2`, `bit!(edx, 26)` of src/lib.rs. -/
def FeatureInformation.sse2 (s : FeatureInformation) : Bool := bitAccessor s.edx 26

/-- Accessor `ss`, `bit!(edx, 27)` of src/lib.rs. -/
def FeatureInformation.ss (s : FeatureInformation) : Bool := bitAccessor s.edx 27

/-- Accessor `htt`, `bit!(edx, 28)` of src/lib.rs. -/
def FeatureInformation.htt (s : FeatureInformation) : Bool := bitAccessor s.edx 28

/-- Accessor `tm`, `bit!(edx, 29)` of src/lib.rs. -/
def FeatureInformation.tm (s : FeatureInformation) : Bool := bitAccessor s.edx 29

/-- Accessor `pbe`, `bit!(edx, 31)` of src/lib.rs. -/
def FeatureInformation.pbe (s : FeatureInformation) : Bool := bitAccessor s.edx 31

/-- The descriptor `ThermalPowerManagementInformation` of src/lib.rs lines
279-283: the first three result words of the thermal leaf. -/
structure ThermalPowerManagementInformation where
  eax : Nat
  ebx : Nat
  ecx : Nat

/-- Accessor `digital_temperature_sensor`, `bit!(eax, 0)` of src/lib.rs. -/
def ThermalPowerManagementInformation.digital_temperature_sensor (s : ThermalPowerManagementInformation) : Bool := bitAccessor s.eax 0

/-- Accessor `intel_turbo_boost`, `bit!(eax, 1)` of src/lib.rs. -/
def ThermalPowerManagementInformation.intel_turbo_boost (s : ThermalPowerManagementInformation) : Bool := bitAccessor s.eax 1

/-- Accessor `arat`, `bit!(eax, 2)` of src/lib.rs. -/
def ThermalPowerManagementInformation.arat (s : ThermalPowerManagementInformation) : Bool := bitAccessor s.eax 2

/-- Accessor `pln`, `bit!(eax, 4)` of src/lib.rs. -/
def ThermalPowerManagementInformation.pln (s : ThermalPowerManagementInformation) : Bool := bitAccessor s.eax 4

/-- Accessor `ecmd`, `bit!(eax, 5)` of src/lib.rs. -/
def ThermalPowerManagementInformation.ecmd (s : ThermalPowerManagementInformation) : Bool := bitAccessor s.eax 5

/-- Accessor `ptm`, `bit!(eax, 6)` of src/lib.rs. -/
def ThermalPowerManagementInformation.ptm (s : ThermalPowerManagementInformation) : Bool := bitAccessor s.eax 6

/-- Accessor `hwp`, `bit!(eax, 7)` of src/lib.rs. -/
def ThermalPowerManagementInformation.hwp (s : ThermalPowerManagementInformation) : Bool := bitAccessor s.eax 7

/-- Accessor `hwp_notification`, `bit!(eax, 8)` of src/lib.rs. -/
def ThermalPowerManagementInformation.hwp_notification (s : ThermalPowerManagementInformation) : Bool := bitAccessor s.eax 8

/-- Accessor `hwp_activity_window`, `bit!(eax, 9)` of src/lib.rs. -/
def ThermalPowerManagementInformation.hwp_activity_window (s : ThermalPowerManagementInformation) : Bool := bitAccessor s.eax 9

/-- Accessor `hwp_energy_performance_preference`, `bit!(eax, 10)` of src/lib.rs. -/
def ThermalPowerManagementInformation.hwp_energy_performance_preference (s : ThermalPowerManagementInformation) : Bool := bitAccessor s.eax 10

/-- Accessor `hdc`, `bit!(eax, 13)` of src/lib.rs. -/
def ThermalPowerManagementInformation.hdc (s : ThermalPowerManagementInformation) : Bool := bitAccessor s.eax 13

/-- Accessor `number_of_interrupt_thresholds` of src/lib.rs lines 300-302:
`bits_of(self.ebx, 0, 3)`. -/
def ThermalPowerManagementInformation.number_of_interrupt_thresholds (s : ThermalPowerManagementInformation) : Nat := bits_of s.ebx 0 3

/-- Accessor `hardware_coordination_feedback`, `bit!(ecx, 0)` of src/lib.rs. -/
def ThermalPowerManagementInformation.hardware_coordination_feedback (s : ThermalPowerManagementInformation) : Bool := bitAccessor s.ecx 0

/-- Accessor `performance_energy_bias`, `bit!(ecx, 3)` of src/lib.rs. -/
def ThermalPowerManagementInformation.performance_energy_bias (s : ThermalPowerManagementInformation) : Bool := bitAccessor s.ecx 3

/-- The descriptor `StructuredExtendedInformation` of src/lib.rs lines 338-341:
the second and third result words of the structured-extended leaf. -/
structure StructuredExtendedInformation where
  ebx : Nat
  ecx : Nat

/-- Accessor `fsgsbase`, `bit!(ebx, 0)` of src/lib.rs. -/
def StructuredExtendedInformation.fsgsbase (s : StructuredExtendedInformation) : Bool := bitAccessor s.ebx 0

/-- Accessor `ia32_tsc_adjust_msr`, `bit!(ebx, 1)` of src/lib.rs. -/
def StructuredExtendedInformation.ia32_tsc_adjust_msr (s : StructuredExtendedInformation) : Bool := bitAccessor s.ebx 1

/-- Accessor `bmi1`, `bit!(ebx, 3)` of src/lib.rs. -/
def StructuredExtendedInformation.bmi1 (s : StructuredExtendedInformation) : Bool := bitAccessor s.ebx 3

/-- Accessor `hle`, `bit!(ebx, 4)` of src/lib.rs. -/
def StructuredExtendedInformation.hle (s : StructuredExtendedInformation) : Bool := bitAccessor s.ebx 4

/-- Accessor `avx2`, `bit!(ebx, 5)` of src/lib.rs. -/
def StructuredExtendedInformation.avx2 (s : StructuredExtendedInformation) : Bool := bitAccessor s.ebx 5

/-- Accessor `smep`, `bit!(ebx, 7)` of src/lib.rs. -/
def StructuredExtendedInformation.smep (s : StructuredExtendedInformation) : Bool := bitAccessor s.ebx 7

/-- Accessor `bmi2`, `bit!(ebx, 8)` of src/lib.rs. -/
def StructuredExtendedInformation.bmi2 (s : StructuredExtendedInformation) : Bool := bitAccessor s.ebx 8

/-- Accessor `enhanced_rep_movsb_stosb`, `bit!(ebx, 9)` of src/lib.rs. -/
def StructuredExtendedInformation.enhanced_rep_movsb_stosb (s : StructuredExtendedInformation) : Bool := bitAccessor s.ebx 9

/-- Accessor `invpcid`, `bit!(ebx, 10)` of src/lib.rs. -/
def StructuredExtendedInformation.invpcid (s : StructuredExtendedInformation) : Bool := bitAccessor s.ebx 10

/-- Accessor `rtm`, `bit!(ebx, 11)` of src/lib.rs. -/
def StructuredExtendedInformation.rtm (s : StructuredExtendedInformation) : Bool := bitAccessor s.ebx 11

/-- Accessor `pqm`, `bit!(ebx, 12)` of src/lib.rs. -/
def StructuredExtendedInformation.pqm (s : StructuredExtendedInformation) : Bool := bitAccessor s.ebx 12

/-- Accessor `deprecates_fpu_cs_ds`, `bit!(ebx, 13)` of src/lib.rs. -/
def StructuredExtendedInformation.deprecates_fpu_cs_ds (s : StructuredExtendedInformation) : Bool := bitAccessor s.ebx 13

/-- Accessor `pqe`, `bit!(ebx, 15)` of src/lib.rs. -/
def StructuredExtendedInformation.pqe (s : StructuredExtendedInformation) : Bool := bitAccessor s.ebx 15

/-- Accessor `rdseed`, `bit!(ebx, 18)` of src/lib.rs. -/
def StructuredExtendedInformation.rdseed (s : StructuredExtendedInformation) : Bool := bitAccessor s.ebx 18

/-- Accessor `adx`, `bit!(ebx, 19)` of src/lib.rs. -/
def StructuredExtendedInformation.adx (s : StructuredExtendedInformation) : Bool := bitAccessor s.ebx 19

/-- Accessor `smap`, `bit!(ebx, 20)` of src/lib.rs. -/
def StructuredExtendedInformation.smap (s : StructuredExtendedInformation) : Bool := bitAccessor s.ebx 20

/-- Accessor `intel_processor_trace`, `bit!(ebx, 25)` of src/lib.rs. -/
def StructuredExtendedInformation.intel_processor_trace (s : StructuredExtendedInformation) : Bool := bitAccessor s.ebx 25

/-- Accessor `prefetchwt1`, `bit!(ecx, 0)` of src/lib.rs. -/
def StructuredExtendedInformation.prefetchwt1 (s : StructuredExtendedInformation) : Bool := bitAccessor s.ecx 0

/-- The descriptor `PhysicalAddressSize` of src/lib.rs line 410: the first
result word of the extended address-size leaf. -/
structure PhysicalAddressSize where
  val : Nat

/-- Accessor `physical_address_bits`, `bits_of(self.0, 0, 7)`. -/
def PhysicalAddressSize.physical_address_bits (s : PhysicalAddressSize) : Nat := bits_of s.val 0 7

/-- Accessor `linear_address_bits`, `bits_of(self.0, 8, 15)`. -/
def PhysicalAddressSize.linear_address_bits (s : PhysicalAddressSize) : Nat := bits_of s.val 8 15


/-- The four result words of one `cpuid` query (eax, ebx, ecx, edx). -/
structure Quad where
  a : Nat
  b : Nat
  c : Nat
  d : Nat

/-- The function `as_bytes` of src/lib.rs lines 218-222: the raw in-memory byte
representation of a `u32`, which on the x86 targets this crate runs on is the
little-endian byte order. -/
def as_bytes (v : Nat) : List Nat :=
  [v % 256, (v >>> 8) % 256, (v >>> 16) % 256, (v >>> 24) % 256]

/-- The 16 result bytes of one brand-string query: the chained iterator
`as_bytes(&a) ++ as_bytes(&b) ++ as_bytes(&c) ++ as_bytes(&d)` inside
`append_bytes` (src/lib.rs lines 260-264). -/
def quadBytes (q : Quad) : List Nat :=
  as_bytes q.a ++ as_bytes q.b ++ as_bytes q.c ++ as_bytes q.d

/-- The copy loop of `append_bytes` (src/lib.rs lines 266-268):
`bytes.iter_mut().zip(result_bytes)` overwrites the first
`min dst.length src.length` elements of the destination slice. -/
def overwriteZip (dst src : List Nat) : List Nat :=
  src.take dst.length ++ dst.drop src.length

/-- One `append_bytes(code, &mut bytes[off..])` call: the slice starting at
`off` is overwritten by the query's 16 result bytes. -/
def append_bytes (q : Quad) (bytes : List Nat) (off : Nat) : List Nat :=
  bytes.take off ++ overwriteZip (bytes.drop off) (quadBytes q)

/-- The assembly in `brand_string` (src/lib.rs lines 254-276) as a function of
the three query results: the zero-filled 48-byte buffer of `BrandString::new`,
then `append_bytes` at offsets 0, 16 and 32 for the three brand-string leaves
issued in ascending order. -/
def brand_string_bytes (q1 q2 q3 : Quad) : List Nat :=
  let buf0 := List.replicate BRAND_STRING_LENGTH 0
  let buf1 := append_bytes q1 buf0 0
  let buf2 := append_bytes q2 buf1 16
  append_bytes q3 buf2 32

/-- A rendered field value: boolean flags print as `true`/`false` (the Rust
`Display` for `bool`), numeric fields as the decimal numeral. -/
inductive FieldVal where
  | bVal (x : Bool) : FieldVal
  | nVal (x : Nat) : FieldVal

/-- String form of a field value, as the `{}` format specifier renders it. -/
def fieldStr : FieldVal → String
  | .bVal x => if x then "true" else "false"
  | .nVal x => toString x

/-- One `writeln!(f, "\x7b\x7d: \x7b\x7d", name, value)` line of the `dump!`
macro (src/lib.rs lines 142-146) for a boolean accessor. -/
def boolLine (name : String) (b : Bool) : String :=
  name ++ ": " ++ (if b then "true" else "false")

/-- One `dump!` line for a numeric accessor. -/
def natLine (name : String) (n : Nat) : String :=
  name ++ ": " ++ toString n

/-- The documented bit-layout table of `FeatureInformation`: one entry per
accessor of the impl block (src/lib.rs lines 74-140), in declaration order. -/
def featureTable : List (String × (FeatureInformation → FieldVal)) := [
  ("sse3", fun fi => FieldVal.bVal (fi.sse3)),
  ("pclmulqdq", fun fi => FieldVal.bVal (fi.pclmulqdq)),
  ("dtes64", fun fi => FieldVal.bVal (fi.dtes64)),
  ("monitor", fun fi => FieldVal.bVal (fi.monitor)),
  ("ds_cpl", fun fi => FieldVal.bVal (fi.ds_cpl)),
  ("vmx", fun fi => FieldVal.bVal (fi.vmx)),
  ("smx", fun fi => FieldVal.bVal (fi.smx)),
  ("eist", fun fi => FieldVal.bVal (fi.eist)),
  ("tm2", fun fi => FieldVal.bVal (fi.tm2)),
  ("ssse3", fun fi => FieldVal.bVal (fi.ssse3)),
  ("cnxt_id", fun fi => FieldVal.bVal (fi.cnxt_id)),
  ("sdbg", fun fi => FieldVal.bVal (fi.sdbg)),
  ("fma", fun fi => FieldVal.bVal (fi.fma)),
  ("cmpxchg16b", fun fi => FieldVal.bVal (fi.cmpxchg16b)),
  ("xtpr_update_control", fun fi => FieldVal.bVal (fi.xtpr_update_control)),
  ("pdcm", fun fi => FieldVal.bVal (fi.pdcm)),
  ("pcid", fun fi => FieldVal.bVal (fi.pcid)),
  ("dca", fun fi => FieldVal.bVal (fi.dca)),
  ("sse4_1", fun fi => FieldVal.bVal (fi.sse4_1)),
  ("sse4_2", fun fi => FieldVal.bVal (fi.sse4_2)),
  ("x2apic", fun fi => FieldVal.bVal (fi.x2apic)),
  ("movbe", fun fi => FieldVal.bVal (fi.movbe)),
  ("popcnt", fun fi => FieldVal.bVal (fi.popcnt)),
  ("tsc_deadline", fun fi => FieldVal.bVal (fi.tsc_deadline)),
  ("aesni", fun fi => FieldVal.bVal (fi.aesni)),
  ("xsave", fun fi => FieldVal.bVal (fi.xsave)),
  ("osxsave", fun fi => FieldVal.bVal (fi.osxsave)),
  ("avx", fun fi => FieldVal.bVal (fi.avx)),
  ("f16c", fun fi => FieldVal.bVal (fi.f16c)),
  ("rdrand", fun fi => FieldVal.bVal (fi.rdrand)),
  ("fpu", fun fi => FieldVal.bVal (fi.fpu)),
  ("vme", fun fi => FieldVal.bVal (fi.vme)),
  ("de", fun fi => FieldVal.bVal (fi.de)),
  ("pse", fun fi => FieldVal.bVal (fi.pse)),
  ("tsc", fun fi => FieldVal.bVal (fi.tsc)),
  ("msr", fun fi => FieldVal.bVal (fi.msr)),
  ("pae", fun fi => FieldVal.bVal (fi.pae)),
  ("mce", fun fi => FieldVal.bVal (fi.mce)),
  ("cx8", fun fi => FieldVal.bVal (fi.cx8)),
  ("apic", fun fi => FieldVal.bVal (fi.apic)),
  ("sep", fun fi => FieldVal.bVal (fi.sep)),
  ("mtrr", fun fi => FieldVal.bVal (fi.mtrr)),
  ("pge", fun fi => FieldVal.bVal (fi.pge)),
  ("mca", fun fi => FieldVal.bVal (fi.mca)),
  ("cmov", fun fi => FieldVal.bVal (fi.cmov)),
  ("pat", fun fi => FieldVal.bVal (fi.pat)),
  ("pse_36", fun fi => FieldVal.bVal (fi.pse_36)),
  ("psn", fun fi => FieldVal.bVal (fi.psn)),
  ("clfsh", fun fi => FieldVal.bVal (fi.clfsh)),
  ("ds", fun fi => FieldVal.bVal (fi.ds)),
  ("acpi", fun fi => FieldVal.bVal (fi.acpi)),
  ("mmx", fun fi => FieldVal.bVal (fi.mmx)),
  ("fxsr", fun fi => FieldVal.bVal (fi.fxsr)),
  ("sse", fun fi => FieldVal.bVal (fi.sse)),
  ("sse2", fun fi => FieldVal.bVal (fi.sse2)),
  ("ss", fun fi => FieldVal.bVal (fi.ss)),
  ("htt", fun fi => FieldVal.bVal (fi.htt)),
  ("tm", fun fi => FieldVal.bVal (fi.tm)),
  ("pbe", fun fi => FieldVal.bVal (fi.pbe))
]

/-- The documented bit-layout table of `ThermalPowerManagementInformation`
(impl block, src/lib.rs lines 285-308), in declaration order. -/
def thermalTable : List (String × (ThermalPowerManagementInformation → FieldVal)) := [
  ("digital_temperature_sensor", fun t => FieldVal.bVal (t.digital_temperature_sensor)),
  ("intel_turbo_boost", fun t => FieldVal.bVal (t.intel_turbo_boost)),
  ("arat", fun t => FieldVal.bVal (t.arat)),
  ("pln", fun t => FieldVal.bVal (t.pln)),
  ("ecmd", fun t => FieldVal.bVal (t.ecmd)),
  ("ptm", fun t => FieldVal.bVal (t.ptm)),
  ("hwp", fun t => FieldVal.bVal (t.hwp)),
  ("hwp_notification", fun t => FieldVal.bVal (t.hwp_notification)),
  ("hwp_activity_window", fun t => FieldVal.bVal (t.hwp_activity_window)),
  ("hwp_energy_performance_preference", fun t => FieldVal.bVal (t.hwp_energy_performance_preference)),
  ("hdc", fun t => FieldVal.bVal (t.hdc)),
  ("number_of_interrupt_thresholds", fun t => FieldVal.nVal (t.number_of_interrupt_thresholds)),
  ("hardware_coordination_feedback", fun t => FieldVal.bVal (t.hardware_coordination_feedback)),
  ("performance_energy_bias", fun t => FieldVal.bVal (t.performance_energy_bias))
]

/-- The documented bit-layout table of `StructuredExtendedInformation`
(impl block, src/lib.rs lines 343-378), in declaration order. -/
def structuredTable : List (String × (StructuredExtendedInformation → FieldVal)) := [
  ("fsgsbase", fun s => FieldVal.bVal (s.fsgsbase)),
  ("ia32_tsc_adjust_msr", fun s => FieldVal.bVal (s.ia32_tsc_adjust_msr)),
  ("bmi1", fun s => FieldVal.bVal (s.bmi1)),
  ("hle", fun s => FieldVal.bVal (s.hle)),
  ("avx2", fun s => FieldVal.bVal (s.avx2)),
  ("smep", fun s => FieldVal.bVal (s.smep)),
  ("bmi2", fun s => FieldVal.bVal (s.bmi2)),
  ("enhanced_rep_movsb_stosb", fun s => FieldVal.bVal (s.enhanced_rep_movsb_stosb)),
  ("invpcid", fun s => FieldVal.bVal (s.invpcid)),
  ("rtm", fun s => FieldVal.bVal (s.rtm)),
  ("pqm", fun s => FieldVal.bVal (s.pqm)),
  ("deprecates_fpu_cs_ds", fun s => FieldVal.bVal (s.deprecates_fpu_cs_ds)),
  ("pqe", fun s => FieldVal.bVal (s.pqe)),
  ("rdseed", fun s => FieldVal.bVal (s.rdseed)),
  ("adx", fun s => FieldVal.bVal (s.adx)),
  ("smap", fun s => FieldVal.bVal (s.smap)),
  ("intel_processor_trace", fun s => FieldVal.bVal (s.intel_processor_trace)),
  ("prefetchwt1", fun s => FieldVal.bVal (s.prefetchwt1))
]

/-- The `fmt::Debug` body for `FeatureInformation` (src/lib.rs lines 148-211):
the sequence of `dump!` lines, transcribed in the order the impl writes them. -/
def featureDebugLines (fi : FeatureInformation) : List String := [
  boolLine "sse3" (fi.sse3),
  boolLine "pclmulqdq" (fi.pclmulqdq),
  boolLine "dtes64" (fi.dtes64),
  boolLine "monitor" (fi.monitor),
  boolLine "ds_cpl" (fi.ds_cpl),
  boolLine "vmx" (fi.vmx),
  boolLine "smx" (fi.smx),
  boolLine "eist" (fi.eist),
  boolLine "tm2" (fi.tm2),
  boolLine "ssse3" (fi.ssse3),
  boolLine "cnxt_id" (fi.cnxt_id),
  boolLine "sdbg" (fi.sdbg),
  boolLine "fma" (fi.fma),
  boolLine "cmpxchg16b" (fi.cmpxchg16b),
  boolLine "xtpr_update_control" (fi.xtpr_update_control),
  boolLine "pdcm" (fi.pdcm),
  boolLine "pcid" (fi.pcid),
  boolLine "dca" (fi.dca),
  boolLine "sse4_1" (fi.sse4_1),
  boolLine "sse4_2" (fi.sse4_2),
  boolLine "x2apic" (fi.x2apic),
  boolLine "movbe" (fi.movbe),
  boolLine "popcnt" (fi.popcnt),
  boolLine "tsc_deadline" (fi.tsc_deadline),
  boolLine "aesni" (fi.aesni),
  boolLine "xsave" (fi.xsave),
  boolLine "osxsave" (fi.osxsave),
  boolLine "avx" (fi.avx),
  boolLine "f16c" (fi.f16c),
  boolLine "rdrand" (fi.rdrand),
  boolLine "fpu" (fi.fpu),
  boolLine "vme" (fi.vme),
  boolLine "de" (fi.de),
  boolLine "pse" (fi.pse),
  boolLine "tsc" (fi.tsc),
  boolLine "msr" (fi.msr),
  boolLine "pae" (fi.pae),
  boolLine "mce" (fi.mce),
  boolLine "cx8" (fi.cx8),
  boolLine "apic" (fi.apic),
  boolLine "sep" (fi.sep),
  boolLine "mtrr" (fi.mtrr),
  boolLine "pge" (fi.pge),
  boolLine "mca" (fi.mca),
  boolLine "cmov" (fi.cmov),
  boolLine "pat" (fi.pat),
  boolLine "pse_36" (fi.pse_36),
  boolLine "psn" (fi.psn),
  boolLine "clfsh" (fi.clfsh),
  boolLine "ds" (fi.ds),
  boolLine "acpi" (fi.acpi),
  boolLine "mmx" (fi.mmx),
  boolLine "fxsr" (fi.fxsr),
  boolLine "sse" (fi.sse),
  boolLine "sse2" (fi.sse2),
  boolLine "ss" (fi.ss),
  boolLine "htt" (fi.htt),
  boolLine "tm" (fi.tm),
  boolLine "pbe" (fi.pbe)
]

/-- The `fmt::Debug` body for `ThermalPowerManagementInformation` (src/lib.rs
lines 310-330), in the order the impl writes the lines. -/
def thermalDebugLines (t : ThermalPowerManagementInformation) : List String := [
  boolLine "digital_temperature_sensor" (t.digital_temperature_sensor),
  boolLine "intel_turbo_boost" (t.intel_turbo_boost),
  boolLine "arat" (t.arat),
  boolLine "pln" (t.pln),
  boolLine "ecmd" (t.ecmd),
  boolLine "ptm" (t.ptm),
  boolLine "hwp" (t.hwp),
  boolLine "hwp_notification" (t.hwp_notification),
  boolLine "hwp_activity_window" (t.hwp_activity_window),
  boolLine "hwp_energy_performance_preference" (t.hwp_energy_performance_preference),
  boolLine "hdc" (t.hdc),
  natLine "number_of_interrupt_thresholds" (t.number_of_interrupt_thresholds),
  boolLine "hardware_coordination_feedback" (t.hardware_coordination_feedback),
  boolLine "performance_energy_bias" (t.performance_energy_bias)
]

/-- The `fmt::Debug` body for `StructuredExtendedInformation` (src/lib.rs
lines 380-402), in the order the impl writes the lines. -/
def structuredDebugLines (s : StructuredExtendedInformation) : List String := [
  boolLine "fsgsbase" (s.fsgsbase),
  boolLine "ia32_tsc_adjust_msr" (s.ia32_tsc_adjust_msr),
  boolLine "bmi1" (s.bmi1),
  boolLine "hle" (s.hle),
  boolLine "avx2" (s.avx2),
  boolLine "smep" (s.smep),
  boolLine "bmi2" (s.bmi2),
  boolLine "enhanced_rep_movsb_stosb" (s.enhanced_rep_movsb_stosb),
  boolLine "invpcid" (s.invpcid),
  boolLine "rtm" (s.rtm),
  boolLine "pqm" (s.pqm),
  boolLine "deprecates_fpu_cs_ds" (s.deprecates_fpu_cs_ds),
  boolLine "pqe" (s.pqe),
  boolLine "rdseed" (s.rdseed),
  boolLine "adx" (s.adx),
  boolLine "smap" (s.smap),
  boolLine "intel_processor_trace" (s.intel_processor_trace),
  boolLine "prefetchwt1" (s.prefetchwt1)
]


/-- The `try!(writeln!(..))` chain of a `fmt::Debug` impl, run against a sink
whose `i`-th write succeeds exactly when `sink i` is true: the first failing
write's error is returned immediately (surfaced, not retried), identified here
by its line index. -/
def writeLines (sink : Nat → Bool) : Nat → List String → Except Nat Unit
  | _, [] => Except.ok ()
  | i, _ :: rest => if sink i then writeLines sink (i + 1) rest else Except.error i

/-- The `fmt::Debug` impl for `FeatureInformation` against an abstract sink. -/
def fmtFeatureInformation (sink : Nat → Bool) (fi : FeatureInformation) : Except Nat Unit :=
  writeLines sink 0 (featureDebugLines fi)

/-- The `fmt::Debug` impl for `ThermalPowerManagementInformation` against an
abstract sink. -/
def fmtThermal (sink : Nat → Bool) (t : ThermalPowerManagementInformation) : Except Nat Unit :=
  writeLines sink 0 (thermalDebugLines t)

/-- The derived `fmt::Debug` of `PhysicalAddressSize` (src/lib.rs line 409,
`#[derive(Copy,Clone,Debug)]` on the tuple struct): the standard tuple-struct
rendering, a single `PhysicalAddressSize(<word>)` output with the word in
decimal — no per-accessor `name: value` lines. -/
def physicalAddressSizeDebugLines (p : PhysicalAddressSize) : List String :=
  ["PhysicalAddressSize(" ++ toString p.val ++ ")"]

/-! Helper lemmas about the mask loop and bit extraction. -/

lemma sillyMask_eq : ∀ n < 33, sillyMask n = 2 ^ n - 1 := by decide

lemma sillyMask_lt (n : Nat) : sillyMask n < 2 ^ 32 := by
  cases n with
  | zero => decide
  | succ m =>
    show ((sillyMask m <<< 1) % 2 ^ 32) ||| 1 < 2 ^ 32
    exact Nat.or_lt_two_pow (Nat.mod_lt _ (by norm_num)) (by norm_num)

lemma bits_of_eq_mod (w s e : Nat) (hse : s ≤ e) (he : e ≤ 31) :
    bits_of w s e = w / 2 ^ s % 2 ^ (e - s + 1) := by
  unfold bits_of
  have h1 : e + 1 - s = e - s + 1 := by omega
  rw [h1, sillyMask_eq (e - s + 1) (by omega), Nat.and_pow_two_sub_one_eq_mod,
    Nat.shiftRight_eq_div_pow]

lemma bitAccessor_eq_bits (r i : Nat) : bitAccessor r i = decide (bits_of r i i = 1) := by
  unfold bitAccessor bits_of
  have h1 : i + 1 - i = 1 := by omega
  have h2 : sillyMask 1 = 1 := by decide
  rw [h1, h2, Nat.and_one_is_mod]
  rcases Nat.mod_two_eq_zero_or_one (r >>> i) with h | h <;> simp [h]

lemma bits_of_roundtrip (w s e : Nat) (hse : s ≤ e) (he : e ≤ 31) :
    (bits_of w s e <<< s) &&& ((2 ^ (e - s + 1) - 1) <<< s) =
      w &&& ((2 ^ (e - s + 1) - 1) <<< s) := by
  have h1 : e + 1 - s = e - s + 1 := by omega
  have hb : bits_of w s e = (w >>> s) &&& (2 ^ (e - s + 1) - 1) := by
    unfold bits_of
    rw [h1, sillyMask_eq (e - s + 1) (by omega)]
  apply Nat.eq_of_testBit_eq
  intro i
  by_cases hsi : s ≤ i
  · simp only [hb, Nat.testBit_and, Nat.testBit_shiftLeft, Nat.testBit_shiftRight,
      Nat.testBit_two_pow_sub_one, hsi, decide_True, Bool.true_and,
      Nat.add_sub_cancel' hsi]
    cases w.testBit i <;> cases (decide (i - s < e - s + 1)) <;> simp
  · simp only [Nat.testBit_and, Nat.testBit_shiftLeft, hsi, decide_False,
      Bool.false_and, Bool.and_false]

/-! Claim theorems about `bits_of` and the numeric accessors. -/

/-- C3: for a 32-bit word `w` and an inclusive range `[s, e]` with
`0 ≤ s ≤ e ≤ 31`, `bits_of w s e` is the unsigned integer formed by bits
`s..e` of `w` shifted down to position 0 (`w / 2 ^ s % 2 ^ (e - s + 1)`), and
re-embedding the result at position `s` and masking to bits `s..e` reproduces
exactly the original bits of `w` in that range. -/
theorem bits_of_extract_roundtrip (w s e : Nat) (hse : s ≤ e) (he : e ≤ 31) :
    bits_of w s e = w / 2 ^ s % 2 ^ (e - s + 1) ∧
    (bits_of w s e <<< s) &&& ((2 ^ (e - s + 1) - 1) <<< s) =
      w &&& ((2 ^ (e - s + 1) - 1) <<< s) :=
  ⟨bits_of_eq_mod w s e hse he, bits_of_roundtrip w s e hse he⟩

theorem bits_of_extract_roundtrip_witness :
    4 ≤ 11 ∧ 11 ≤ 31 ∧
    (bits_of 43981 4 11 = 43981 / 2 ^ 4 % 2 ^ (11 - 4 + 1) ∧
     (bits_of 43981 4 11 <<< 4) &&& ((2 ^ (11 - 4 + 1) - 1) <<< 4) =
       43981 &&& ((2 ^ (11 - 4 + 1) - 1) <<< 4)) :=
  ⟨by decide, by decide, bits_of_extract_roundtrip 43981 4 11 (by decide) (by decide)⟩

/-- C10: `bits_of` is total even outside the documented precondition: when
`start_bit > end_bit` the mask-building loop is empty, so the result is 0 for
every word (and the `start_bit ≤ 31` bound keeps the Rust shift in range). -/
theorem bits_of_empty_range (w s e : Nat) (_hs : s ≤ 31) (hes : e < s) :
    bits_of w s e = 0 := by
  unfold bits_of
  have h1 : e + 1 - s = 0 := by omega
  rw [h1]
  show (w >>> s) &&& 0 = 0
  exact Nat.and_zero _

theorem bits_of_empty_range_witness :
    5 ≤ 31 ∧ 2 < 5 ∧ bits_of 65535 5 2 = 0 :=
  ⟨by decide, by decide, bits_of_empty_range 65535 5 2 (by decide) (by decide)⟩

/-- C5: `physical_address_bits` reads bits 0-7 of the captured word and
`linear_address_bits` reads bits 8-15 of the same word (non-overlapping
fields); for the word 0x00003024 they are 36 and 48. -/
theorem physical_address_size_fields :
    (∀ p : PhysicalAddressSize,
      p.physical_address_bits = p.val % 2 ^ 8 ∧
      p.linear_address_bits = p.val / 2 ^ 8 % 2 ^ 8) ∧
    (PhysicalAddressSize.mk 0x00003024).physical_address_bits = 36 ∧
    (PhysicalAddressSize.mk 0x00003024).linear_address_bits = 48 := by
  refine ⟨fun p => ⟨?_, ?_⟩, by decide, by decide⟩
  · have h := bits_of_eq_mod p.val 0 7 (by omega) (by omega)
    simpa using h
  · have h := bits_of_eq_mod p.val 8 15 (by omega) (by omega)
    simpa using h

/-- C8: `number_of_interrupt_thresholds` is exactly bits 0-3 of the captured
second result word (ebx), hence at most 15. -/
theorem number_of_interrupt_thresholds_spec
    (t : ThermalPowerManagementInformation) :
    t.number_of_interrupt_thresholds = t.ebx % 2 ^ 4 ∧
    t.number_of_interrupt_thresholds ≤ 15 := by
  have h := bits_of_eq_mod t.ebx 0 3 (by omega) (by omega)
  simp only [ThermalPowerManagementInformation.number_of_interrupt_thresholds]
  constructor
  · simpa using h
  · have h2 : t.ebx % 2 ^ 4 < 2 ^ 4 := Nat.mod_lt _ (by norm_num)
    simp only [Nat.pow_zero, Nat.div_one] at h
    omega
/-- C4: every single-bit boolean accessor of every descriptor instance equals
extracting the degenerate range [idx, idx] at its documented bit index via
`bits_of` and comparing to 1 (so it returns exactly `((word >> idx) & 1) != 0`). -/
theorem bit_accessors_eq_bits_of (fi : FeatureInformation)
    (t : ThermalPowerManagementInformation) (s : StructuredExtendedInformation) :
    fi.sse3 = decide (bits_of fi.ecx 0 0 = 1) ∧
    fi.pclmulqdq = decide (bits_of fi.ecx 1 1 = 1) ∧
    fi.dtes64 = decide (bits_of fi.ecx 2 2 = 1) ∧
    fi.monitor = decide (bits_of fi.ecx 3 3 = 1) ∧
    fi.ds_cpl = decide (bits_of fi.ecx 4 4 = 1) ∧
    fi.vmx = decide (bits_of fi.ecx 5 5 = 1) ∧
    fi.smx = decide (bits_of fi.ecx 6 6 = 1) ∧
    fi.eist = decide (bits_of fi.ecx 7 7 = 1) ∧
    fi.tm2 = decide (bits_of fi.ecx 8 8 = 1) ∧
    fi.ssse3 = decide (bits_of fi.ecx 9 9 = 1) ∧
    fi.cnxt_id = decide (bits_of fi.ecx 10 10 = 1) ∧
    fi.sdbg = decide (bits_of fi.ecx 11 11 = 1) ∧
    fi.fma = decide (bits_of fi.ecx 12 12 = 1) ∧
    fi.cmpxchg16b = decide (bits_of fi.ecx 13 13 = 1) ∧
    fi.xtpr_update_control = decide (bits_of fi.ecx 14 14 = 1) ∧
    fi.pdcm = decide (bits_of fi.ecx 15 15 = 1) ∧
    fi.pcid = decide (bits_of fi.ecx 17 17 = 1) ∧
    fi.dca = decide (bits_of fi.ecx 18 18 = 1) ∧
    fi.sse4_1 = decide (bits_of fi.ecx 19 19 = 1) ∧
    fi.sse4_2 = decide (bits_of fi.ecx 20 20 = 1) ∧
    fi.x2apic = decide (bits_of fi.ecx 21 21 = 1) ∧
    fi.movbe = decide (bits_of fi.ecx 22 22 = 1) ∧
    fi.popcnt = decide (bits_of fi.ecx 23 23 = 1) ∧
    fi.tsc_deadline = decide (bits_of fi.ecx 24 24 = 1) ∧
    fi.aesni = decide (bits_of fi.ecx 25 25 = 1) ∧
    fi.xsave = decide (bits_of fi.ecx 26 26 = 1) ∧
    fi.osxsave = decide (bits_of fi.ecx 27 27 = 1) ∧
    fi.avx = decide (bits_of fi.ecx 28 28 = 1) ∧
    fi.f16c = decide (bits_of fi.ecx 29 29 = 1) ∧
    fi.rdrand = decide (bits_of fi.ecx 30 30 = 1) ∧
    fi.fpu = decide (bits_of fi.edx 0 0 = 1) ∧
    fi.vme = decide (bits_of fi.edx 1 1 = 1) ∧
    fi.de = decide (bits_of fi.edx 2 2 = 1) ∧
    fi.pse = decide (bits_of fi.edx 3 3 = 1) ∧
    fi.tsc = decide (bits_of fi.edx 4 4 = 1) ∧
    fi.msr = decide (bits_of fi.edx 5 5 = 1) ∧
    fi.pae = decide (bits_of fi.edx 6 6 = 1) ∧
    fi.mce = decide (bits_of fi.edx 7 7 = 1) ∧
    fi.cx8 = decide (bits_of fi.edx 8 8 = 1) ∧
    fi.apic = decide (bits_of fi.edx 9 9 = 1) ∧
    fi.sep = decide (bits_of fi.edx 11 11 = 1) ∧
    fi.mtrr = decide (bits_of fi.edx 12 12 = 1) ∧
    fi.pge = decide (bits_of fi.edx 13 13 = 1) ∧
    fi.mca = decide (bits_of fi.edx 14 14 = 1) ∧
    fi.cmov = decide (bits_of fi.edx 15 15 = 1) ∧
    fi.pat = decide (bits_of fi.edx 16 16 = 1) ∧
    fi.pse_36 = decide (bits_of fi.edx 17 17 = 1) ∧
    fi.psn = decide (bits_of fi.edx 18 18 = 1) ∧
    fi.clfsh = decide (bits_of fi.edx 19 19 = 1) ∧
    fi.ds = decide (bits_of fi.edx 21 21 = 1) ∧
    fi.acpi = decide (bits_of fi.edx 22 22 = 1) ∧
    fi.mmx = decide (bits_of fi.edx 23 23 = 1) ∧
    fi.fxsr = decide (bits_of fi.edx 24 24 = 1) ∧
    fi.sse = decide (bits_of fi.edx 25 25 = 1) ∧
    fi.sse2 = decide (bits_of fi.edx 26 26 = 1) ∧
    fi.ss = decide (bits_of fi.edx 27 27 = 1) ∧
    fi.htt = decide (bits_of fi.edx 28 28 = 1) ∧
    fi.tm = decide (bits_of fi.edx 29 29 = 1) ∧
    fi.pbe = decide (bits_of fi.edx 31 31 = 1) ∧
    t.digital_temperature_sensor = decide (bits_of t.eax 0 0 = 1) ∧
    t.intel_turbo_boost = decide (bits_of t.eax 1 1 = 1) ∧
    t.arat = decide (bits_of t.eax 2 2 = 1) ∧
    t.pln = decide (bits_of t.eax 4 4 = 1) ∧
    t.ecmd = decide (bits_of t.eax 5 5 = 1) ∧
    t.ptm = decide (bits_of t.eax 6 6 = 1) ∧
    t.hwp = decide (bits_of t.eax 7 7 = 1) ∧
    t.hwp_notification = decide (bits_of t.eax 8 8 = 1) ∧
    t.hwp_activity_window = decide (bits_of t.eax 9 9 = 1) ∧
    t.hwp_energy_performance_preference = decide (bits_of t.eax 10 10 = 1) ∧
    t.hdc = decide (bits_of t.eax 13 13 = 1) ∧
    t.hardware_coordination_feedback = decide (bits_of t.ecx 0 0 = 1) ∧
    t.performance_energy_bias = decide (bits_of t.ecx 3 3 = 1) ∧
    s.fsgsbase = decide (bits_of s.ebx 0 0 = 1) ∧
    s.ia32_tsc_adjust_msr = decide (bits_of s.ebx 1 1 = 1) ∧
    s.bmi1 = decide (bits_of s.ebx 3 3 = 1) ∧
    s.hle = decide (bits_of s.ebx 4 4 = 1) ∧
    s.avx2 = decide (bits_of s.ebx 5 5 = 1) ∧
    s.smep = decide (bits_of s.ebx 7 7 = 1) ∧
    s.bmi2 = decide (bits_of s.ebx 8 8 = 1) ∧
    s.enhanced_rep_movsb_stosb = decide (bits_of s.ebx 9 9 = 1) ∧
    s.invpcid = decide (bits_of s.ebx 10 10 = 1) ∧
    s.rtm = decide (bits_of s.ebx 11 11 = 1) ∧
    s.pqm = decide (bits_of s.ebx 12 12 = 1) ∧
    s.deprecates_fpu_cs_ds = decide (bits_of s.ebx 13 13 = 1) ∧
    s.pqe = decide (bits_of s.ebx 15 15 = 1) ∧
    s.rdseed = decide (bits_of s.ebx 18 18 = 1) ∧
    s.adx = decide (bits_of s.ebx 19 19 = 1) ∧
    s.smap = decide (bits_of s.ebx 20 20 = 1) ∧
    s.intel_processor_trace = decide (bits_of s.ebx 25 25 = 1) ∧
    s.prefetchwt1 = decide (bits_of s.ecx 0 0 = 1) :=
  ⟨bitAccessor_eq_bits _ _, bitAccessor_eq_bits _ _, bitAccessor_eq_bits _ _, bitAccessor_eq_bits _ _, bitAccessor_eq_bits _ _, bitAccessor_eq_bits _ _, bitAccessor_eq_bits _ _, bitAccessor_eq_bits _ _, bitAccessor_eq_bits _ _, bitAccessor_eq_bits _ _, bitAccessor_eq_bits _ _, bitAccessor_eq_bits _ _, bitAccessor_eq_bits _ _, bitAccessor_eq_bits _ _, bitAccessor_eq_bits _ _, bitAccessor_eq_bits _ _, bitAccessor_eq_bits _ _, bitAccessor_eq_bits _ _, bitAccessor_eq_bits _ _, bitAccessor_eq_bits _ _, bitAccessor_eq_bits _ _, bitAccessor_eq_bits _ _, bitAccessor_eq_bits _ _, bitAccessor_eq_bits _ _, bitAccessor_eq_bits _ _, bitAccessor_eq_bits _ _, bitAccessor_eq_bits _ _, bitAccessor_eq_bits _ _, bitAccessor_eq_bits _ _, bitAccessor_eq_bits _ _, bitAccessor_eq_bits _ _, bitAccessor_eq_bits _ _, bitAccessor_eq_bits _ _, bitAccessor_eq_bits _ _, bitAccessor_eq_bits _ _, bitAccessor_eq_bits _ _, bitAccessor_eq_bits _ _, bitAccessor_eq_bits _ _, bitAccessor_eq_bits _ _, bitAccessor_eq_bits _ _, bitAccessor_eq_bits _ _, bitAccessor_eq_bits _ _, bitAccessor_eq_bits _ _, bitAccessor_eq_bits _ _, bitAccessor_eq_bits _ _, bitAccessor_eq_bits _ _, bitAccessor_eq_bits _ _, bitAccessor_eq_bits _ _, bitAccessor_eq_bits _ _, bitAccessor_eq_bits _ _, bitAccessor_eq_bits _ _, bitAccessor_eq_bits _ _, bitAccessor_eq_bits _ _, bitAccessor_eq_bits _ _, bitAccessor_eq_bits _ _, bitAccessor_eq_bits _ _, bitAccessor_eq_bits _ _, bitAccessor_eq_bits _ _, bitAccessor_eq_bits _ _, bitAccessor_eq_bits _ _, bitAccessor_eq_bits _ _, bitAccessor_eq_bits _ _, bitAccessor_eq_bits _ _, bitAccessor_eq_bits _ _, bitAccessor_eq_bits _ _, bitAccessor_eq_bits _ _, bitAccessor_eq_bits _ _, bitAccessor_eq_bits _ _, bitAccessor_eq_bits _ _, bitAccessor_eq_bits _ _, bitAccessor_eq_bits _ _, bitAccessor_eq_bits _ _, bitAccessor_eq_bits _ _, bitAccessor_eq_bits _ _, bitAccessor_eq_bits _ _, bitAccessor_eq_bits _ _, bitAccessor_eq_bits _ _, bitAccessor_eq_bits _ _, bitAccessor_eq_bits _ _, bitAccessor_eq_bits _ _, bitAccessor_eq_bits _ _, bitAccessor_eq_bits _ _, bitAccessor_eq_bits _ _, bitAccessor_eq_bits _ _, bitAccessor_eq_bits _ _, bitAccessor_eq_bits _ _, bitAccessor_eq_bits _ _, bitAccessor_eq_bits _ _, bitAccessor_eq_bits _ _, bitAccessor_eq_bits _ _⟩

/-! Claim theorems about brand-string assembly and truncation. -/

lemma position_zero_isSome (l : List Nat) :
    (position (fun b => b == 0) l).isSome = true ↔ (0 : Nat) ∈ l := by
  induction l with
  | nil => simp [position]
  | cons b bs ih =>
    by_cases hb : b = 0
    · subst hb
      simp [position]
    · have hb' : (b == 0) = false := by simp [hb]
      simp [position, hb', ih, Ne.symm hb]

lemma derefBrand_eq_cases (bytes : List Nat) :
    derefBrand bytes =
      if (0 : Nat) ∈ bytes then bytes.takeWhile (fun b => b != 0) else [] := by
  induction bytes with
  | nil => rfl
  | cons b bs ih =>
    by_cases hb : b = 0
    · subst hb
      simp [derefBrand, position, List.takeWhile]
    · have hb' : (b == 0) = false := by simp [hb]
      have hbne : (b != 0) = true := by simp [hb]
      by_cases hmem : (0 : Nat) ∈ bs
      · rcases hk : position (fun x => x == 0) bs with _ | k
        · exfalso
          have := (position_zero_isSome bs).2 hmem
          rw [hk] at this
          simp at this
        · have hbs : derefBrand bs = bs.take k := by
            simp [derefBrand, hk]
          rw [hbs] at ih
          simp only [derefBrand, position, hb', if_false, hk, Option.map_some',
            Option.getD_some, List.take_succ_cons, List.takeWhile_cons, hbne,
            if_true, List.mem_cons, hmem, or_true, if_pos] at *
          simp [List.mem_cons, Ne.symm hb, hmem, List.takeWhile_cons, hbne, ih]
      · have hnone : position (fun x => x == 0) bs = none := by
          rcases hk : position (fun x => x == 0) bs with _ | k
          · rfl
          · exfalso
            apply hmem
            apply (position_zero_isSome bs).1
            rw [hk]
            rfl
        simp [derefBrand, position, hb', hnone, List.mem_cons, Ne.symm hb, hmem]

/-- C1 counterexample: for the 48-byte buffer holding no zero byte at all
(48 copies of byte 1), `deref` does not return the whole buffer — the
`unwrap_or(0)` in src/lib.rs line 242 turns the missing zero byte into the
empty prefix. -/
theorem derefBrand_no_nul_counterexample :
    derefBrand (List.replicate BRAND_STRING_LENGTH 1) ≠
      List.replicate BRAND_STRING_LENGTH 1 := by decide

/-- C1 amended: the logical string value of a brand-string buffer is the
buffer's prefix up to (not including) the first zero byte when a zero byte is
present; when the buffer contains no zero byte at all, it is the empty string
(not the whole buffer). -/
theorem derefBrand_truncation (bytes : List Nat) :
    ((0 : Nat) ∈ bytes → derefBrand bytes = bytes.takeWhile (fun b => b != 0)) ∧
    ((0 : Nat) ∉ bytes → derefBrand bytes = []) := by
  constructor
  · intro h
    rw [derefBrand_eq_cases, if_pos h]
  · intro h
    rw [derefBrand_eq_cases, if_neg h]

theorem derefBrand_truncation_witness :
    ((0 : Nat) ∈ [65, 0, 66] ∧
      derefBrand [65, 0, 66] = [65, 0, 66].takeWhile (fun b => b != 0)) ∧
    ((0 : Nat) ∉ [1, 2, 3] ∧ derefBrand [1, 2, 3] = []) :=
  ⟨⟨by decide, (derefBrand_truncation [65, 0, 66]).1 (by decide)⟩,
   ⟨by decide, (derefBrand_truncation [1, 2, 3]).2 (by decide)⟩⟩

/-- C6: for a 48-byte buffer holding the bytes of "ABC", then a zero byte,
then arbitrary further bytes, the logical string value of `deref` is exactly
"ABC". -/
theorem derefBrand_abc (rest : List Nat) (_h : rest.length = 44) :
    derefBrandStr ([65, 66, 67, 0] ++ rest) = "ABC" := rfl

theorem derefBrand_abc_witness :
    (List.replicate 44 88).length = 44 ∧
    derefBrandStr ([65, 66, 67, 0] ++ List.replicate 44 88) = "ABC" :=
  ⟨by decide, derefBrand_abc (List.replicate 44 88) (by decide)⟩

set_option maxHeartbeats 2000000 in
lemma brand_string_bytes_concat (q1 q2 q3 : Quad) :
    brand_string_bytes q1 q2 q3 = quadBytes q1 ++ quadBytes q2 ++ quadBytes q3 := rfl

set_option maxHeartbeats 2000000 in
/-- C2: brand-string assembly writes the little-endian bytes of the four words
of each query, in word order, into the consecutive 16-byte regions at offsets
0, 16 and 32 of the 48-byte buffer; the contents are a function of the three
query results alone, so reassembling from the same results is byte-identical. -/
theorem brand_string_assembly (q1 q2 q3 : Quad) :
    brand_string_bytes q1 q2 q3 = quadBytes q1 ++ quadBytes q2 ++ quadBytes q3 ∧
    (brand_string_bytes q1 q2 q3).take 16 = quadBytes q1 ∧
    ((brand_string_bytes q1 q2 q3).drop 16).take 16 = quadBytes q2 ∧
    (brand_string_bytes q1 q2 q3).drop 32 = quadBytes q3 ∧
    (brand_string_bytes q1 q2 q3).length = BRAND_STRING_LENGTH := by
  refine ⟨brand_string_bytes_concat q1 q2 q3, ?_, ?_, ?_, ?_⟩ <;>
    rw [brand_string_bytes_concat q1 q2 q3] <;> rfl

/-! Claim theorems about diagnostic rendering. -/

/-- C7 counterexample: the Address-Size descriptor is a descriptor kind, yet
its rendering is the derived tuple-struct one: at the word 0x00003024 it
produces the single output `PhysicalAddressSize(12324)`, not one
`name: value` line per documented accessor (`physical_address_bits: 36`,
`linear_address_bits: 48`), refuting the claim's quantification over every
descriptor instance. -/
theorem physical_debug_not_accessor_lines :
    physicalAddressSizeDebugLines (PhysicalAddressSize.mk 0x00003024) =
      ["PhysicalAddressSize(12324)"] ∧
    physicalAddressSizeDebugLines (PhysicalAddressSize.mk 0x00003024) ≠
      ["physical_address_bits: 36", "linear_address_bits: 48"] := by
  constructor
  · rfl
  · decide

/-- C7 as amended: for every instance of the three descriptors with a
hand-written `fmt::Debug` impl (feature, thermal/power, structured-extended),
the diagnostic rendering emits exactly one line per documented accessor, in
the fixed bit-layout table order (never omitting or duplicating a name), each
line formatted as `name: value` with `true`/`false` for boolean accessors and
the decimal numeral for the numeric accessor; the Address-Size descriptor's
rendering is instead the derived single `PhysicalAddressSize(<word>)` output
with no per-accessor lines. -/
theorem debug_lines_follow_table :
    (∀ p : PhysicalAddressSize,
      physicalAddressSizeDebugLines p =
        ["PhysicalAddressSize(" ++ toString p.val ++ ")"]) ∧
    (∀ fi : FeatureInformation,
      featureDebugLines fi =
        featureTable.map (fun p => p.1 ++ ": " ++ fieldStr (p.2 fi))) ∧
    (featureTable.map Prod.fst).Nodup ∧
    (∀ t : ThermalPowerManagementInformation,
      thermalDebugLines t =
        thermalTable.map (fun p => p.1 ++ ": " ++ fieldStr (p.2 t))) ∧
    (thermalTable.map Prod.fst).Nodup ∧
    (∀ s : StructuredExtendedInformation,
      structuredDebugLines s =
        structuredTable.map (fun p => p.1 ++ ": " ++ fieldStr (p.2 s))) ∧
    (structuredTable.map Prod.fst).Nodup :=
  ⟨fun _ => rfl, fun _ => rfl, by decide, fun _ => rfl, by decide, fun _ => rfl, by decide⟩

lemma writeLines_ok_iff (sink : Nat → Bool) :
    ∀ (l : List String) (i : Nat),
      writeLines sink i l = Except.ok () ↔ ∀ j < l.length, sink (i + j) = true := by
  intro l
  induction l with
  | nil => simp [writeLines]
  | cons a rest ih =>
    intro i
    by_cases hi : sink i = true
    · rw [show writeLines sink i (a :: rest) = writeLines sink (i + 1) rest by
        simp [writeLines, hi]]
      rw [ih (i + 1)]
      constructor
      · intro hrest j hj
        cases j with
        | zero => simpa using hi
        | succ m =>
          have := hrest m (by simpa using hj)
          simpa [Nat.add_assoc, Nat.add_comm 1 m] using this
      · intro hall j hj
        have := hall (j + 1) (by simpa using hj)
        simpa [Nat.add_assoc, Nat.add_comm 1 j] using this
    · rw [show writeLines sink i (a :: rest) = Except.error i by
        simp [writeLines, hi]]
      simp only [List.length_cons]
      constructor
      · intro hcon
        exact absurd hcon (by simp)
      · intro hall
        exact absurd (by simpa using hall 0 (by omega)) hi

lemma writeLines_error_spec (sink : Nat → Bool) :
    ∀ (l : List String) (i k : Nat),
      writeLines sink i l = Except.error k →
      sink k = false ∧ ∀ j, i ≤ j → j < k → sink j = true := by
  intro l
  induction l with
  | nil => simp [writeLines]
  | cons a rest ih =>
    intro i k h
    by_cases hi : sink i = true
    · rw [show writeLines sink i (a :: rest) = writeLines sink (i + 1) rest by
        simp [writeLines, hi]] at h
      obtain ⟨hk, hbelow⟩ := ih (i + 1) k h
      refine ⟨hk, fun j hij hjk => ?_⟩
      rcases Nat.eq_or_lt_of_le hij with rfl | hlt
      · exact hi
      · exact hbelow j hlt hjk
    · rw [show writeLines sink i (a :: rest) = Except.error i by
        simp [writeLines, hi]] at h
      obtain rfl : i = k := by simpa using h
      exact ⟨by simpa using hi, fun j hij hji => absurd hij (by omega)⟩

/-- C9: the diagnostic rendering returns an error exactly when a write to the
supplied output sink fails, and the failure it returns is the first failing
write (surfaced, not retried); the pure operations (brand-string assembly,
`bits_of`) always produce a plain value, e.g. a full 48-byte buffer and a
result within the 32-bit range. -/
theorem rendering_error_iff_sink_failure (sink : Nat → Bool)
    (fi : FeatureInformation) (t : ThermalPowerManagementInformation) :
    (fmtFeatureInformation sink fi = Except.ok () ↔
      ∀ j < (featureDebugLines fi).length, sink j = true) ∧
    (∀ k, fmtFeatureInformation sink fi = Except.error k →
      sink k = false ∧ ∀ j < k, sink j = true) ∧
    (fmtThermal sink t = Except.ok () ↔
      ∀ j < (thermalDebugLines t).length, sink j = true) ∧
    (∀ k, fmtThermal sink t = Except.error k →
      sink k = false ∧ ∀ j < k, sink j = true) ∧
    (∀ q1 q2 q3 : Quad,
      (brand_string_bytes q1 q2 q3).length = BRAND_STRING_LENGTH) ∧
    (∀ w s e : Nat, bits_of w s e < 2 ^ 32) := by
  refine ⟨?_, ?_, ?_, ?_, ?_, ?_⟩
  · simpa using writeLines_ok_iff sink (featureDebugLines fi) 0
  · intro k h
    obtain ⟨hk, hbelow⟩ := writeLines_error_spec sink (featureDebugLines fi) 0 k h
    exact ⟨hk, fun j hj => hbelow j (Nat.zero_le j) hj⟩
  · simpa using writeLines_ok_iff sink (thermalDebugLines t) 0
  · intro k h
    obtain ⟨hk, hbelow⟩ := writeLines_error_spec sink (thermalDebugLines t) 0 k h
    exact ⟨hk, fun j hj => hbelow j (Nat.zero_le j) hj⟩
  · intro q1 q2 q3
    rw [brand_string_bytes_concat q1 q2 q3]
    rfl
  · intro w s e
    calc bits_of w s e ≤ sillyMask (e + 1 - s) := Nat.and_le_right
      _ < 2 ^ 32 := sillyMask_lt _

theorem rendering_error_iff_sink_failure_witness :
    (fun i => decide (i < 3)) 3 = false ∧
    ∀ j < 3, (fun i => decide (i < 3)) j = true :=
  (rendering_error_iff_sink_failure (fun i => decide (i < 3))
    (FeatureInformation.mk 0 0) (ThermalPowerManagementInformation.mk 0 0 0)).2.2.2.1
    3 rfl
